import Mathlib

/-!
# Verification of the AutoDock Vina batch-docking script

Shallow embedding of `src/backend/python/Automatizacion2_7.py` (referred to
below as "the script").  Python strings are modelled as Lean `String`
(sequences of code points); the small text-manipulation helpers below
reimplement, over `String.data`, exactly the Python primitives the script
uses (`str.strip`, `str.split`, `str.split('\n')`, `str.startswith`,
slicing `[:66]`).  Fallible operations (file reads, subprocess launches)
are modelled as `Except` values supplied as inputs, and file writes as
association lists of (file name, content).
-/

namespace Vina

/-- The code points Python's `str.strip()` / `str.split()` treat as
whitespace (the ASCII ones, which are the only ones relevant here). -/
def pyWS (c : Char) : Bool :=
  c = ' ' || c = '\t' || c = '\n' || c = '\r' || c = '\x0b' || c = '\x0c'

/-- `l` with leading and trailing whitespace removed (Python `str.strip()`),
on the underlying character list. -/
def stripChars (l : List Char) : List Char :=
  ((l.dropWhile pyWS).reverse.dropWhile pyWS).reverse

/-- Python `str.strip()`. -/
def pyStrip (s : String) : String := String.mk (stripChars s.data)

/-- Helper for `pySplit`: split a character list on runs of whitespace,
accumulating the current (reversed) word in `acc`. -/
def splitWsAux : List Char → List Char → List (List Char)
  | [], acc => if acc = [] then [] else [acc.reverse]
  | c :: cs, acc =>
    if pyWS c then
      if acc = [] then splitWsAux cs []
      else acc.reverse :: splitWsAux cs []
    else splitWsAux cs (c :: acc)

/-- Python `str.split()` (no separator): maximal runs of non-whitespace,
empty fields discarded. -/
def pySplit (s : String) : List String :=
  (splitWsAux s.data []).map String.mk

/-- Split a character list at every newline, keeping empty segments
(Python `str.split('\n')`). -/
def splitNlChars : List Char → List (List Char)
  | [] => [[]]
  | c :: cs =>
    if c = '\n' then [] :: splitNlChars cs
    else
      match splitNlChars cs with
      | g :: gs => (c :: g) :: gs
      | [] => [[c]]

/-- Python `output.split('\n')`. -/
def pyLines (s : String) : List String := (splitNlChars s.data).map String.mk

/-- `p` is a prefix of `s` as character lists. -/
def listStarts : List Char → List Char → Bool
  | [], _ => true
  | _ :: _, [] => false
  | p :: ps, c :: cs => c = p && listStarts ps cs

/-- Python `s.startswith(p)`. -/
def pyStarts (s p : String) : Bool := listStarts p.data s.data

/-- Python slicing `s[:n]` (by code points). -/
def pyTake (s : String) (n : Nat) : String := String.mk (s.data.take n)

/-- `sep.join`-style interleaving used to render CSV rows. -/
def strIntercalate (sep : String) : List String → String
  | [] => ""
  | x :: xs => xs.foldl (fun a b => a ++ sep ++ b) x

/-- Concatenation of a list of strings. -/
def strJoin (l : List String) : String := l.foldl (fun a b => a ++ b) ""

/-! ## Energy-table parser (`parse_energies`, script lines 191-205) -/

/-- One row of the parsed energy table: the four dictionary fields
`Mode`, `Energy (kcal/mol)`, `RMSD lower`, `RMSD upper`. -/
structure EnergyRec where
  mode : String
  energy : String
  rmsdLower : String
  rmsdUpper : String
deriving DecidableEq, Repr

/-- The sentinel record the script returns when no line qualifies. -/
def naRecord : EnergyRec := ⟨"N/A", "N/A", "N/A", "N/A"⟩

/-- `tuple(str(n) for n in range(1, 10))`, enumerated. -/
def digitStrings : List String := ["1", "2", "3", "4", "5", "6", "7", "8", "9"]

/-- `line.strip().startswith(tuple(str(n) for n in range(1, 10)))`:
the stripped line starts with one of the one-character strings
`"1"`, ..., `"9"`. -/
def lineStartsDigit (line : String) : Bool :=
  digitStrings.any fun d => pyStarts (pyStrip line) d

/-- The record extracted from a qualifying line: the first four
whitespace-separated fields of the stripped line. -/
def extractEnergy (line : String) : EnergyRec :=
  let parts := pySplit (pyStrip line)
  ⟨parts.getD 0 "", parts.getD 1 "", parts.getD 2 "", parts.getD 3 ""⟩

/-- A line contributes a record exactly when the script's two guards hold:
stripped line starts with a digit `1`-`9`, and it has at least 4 fields. -/
def lineQualifies (line : String) : Bool :=
  lineStartsDigit line && decide (4 ≤ (pySplit (pyStrip line)).length)

/-- `parse_energies` (script lines 191-205), with the `for` loop over
`output.split('\n')` rendered as a left fold that appends each
qualifying line's record. -/
def parse_energies (output : String) : List EnergyRec :=
  let energies := (pyLines output).foldl
    (fun acc line => if lineQualifies line then acc ++ [extractEnergy line] else acc) []
  if energies = [] then [naRecord] else energies

/-- The qualifying rows of an output, in order: the filter/map view of the
`parse_energies` loop. -/
def qualifyingRows (output : String) : List EnergyRec :=
  ((pyLines output).filter lineQualifies).map extractEnergy

/-- Value of a list of decimal digits. -/
def digitsToNat (l : List Char) : Nat :=
  l.foldl (fun n c => 10 * n + (c.toNat - '0'.toNat)) 0

/-- The token, read as a decimal numeral (`none` when it is not one). -/
def numeralValue? (t : String) : Option Nat :=
  if t.data ≠ [] ∧ t.data.all Char.isDigit then some (digitsToNat t.data) else none

/-- The classification the spec sentence describes, taken literally: the
first non-whitespace token parses as a numeral whose value is between 1
and 9, and the line has at least 4 whitespace-separated fields.  Used
only to compare the spec's wording against the script's actual guard. -/
def specQualifies (line : String) : Bool :=
  (match (pySplit (pyStrip line)).head? with
   | some t =>
     match numeralValue? t with
     | some n => decide (1 ≤ n) && decide (n ≤ 9)
     | none => false
   | none => false)
  && decide (4 ≤ (pySplit (pyStrip line)).length)

theorem foldl_append_records (lines : List String) (acc : List EnergyRec) :
    lines.foldl
      (fun acc line => if lineQualifies line then acc ++ [extractEnergy line] else acc) acc
      = acc ++ (lines.filter lineQualifies).map extractEnergy := by
  induction lines generalizing acc with
  | nil => simp
  | cons l ls ih =>
    by_cases h : lineQualifies l
    · simp [List.foldl_cons, h, ih]
    · simp [List.foldl_cons, h, ih]

theorem parse_energies_eq (output : String) :
    parse_energies output =
      if qualifyingRows output = [] then [naRecord] else qualifyingRows output := by
  unfold parse_energies qualifyingRows
  rw [foldl_append_records]
  simp

theorem parse_energies_ne_nil (output : String) : parse_energies output ≠ [] := by
  rw [parse_energies_eq]
  by_cases h : qualifyingRows output = [] <;> simp [h]

/-! ## Multi-model splitter (`split_pdbqt_models`, script lines 207-231)

The input file is modelled as the list of its lines exactly as Python's
file iteration yields them: each element carries its terminating
newline character (a final line may lack one). -/

/-- The line-collection loop of `split_pdbqt_models`: `MODEL` resets the
current block, `ENDMDL` closes it into `models`, every other line is
appended to the current block.  Lines after the last `ENDMDL` stay in the
(dropped) current block. -/
def collectGo : List String → List (List String) → List String →
    List (List String) × List String
  | [], models, current => (models, current)
  | line :: rest, models, current =>
    if pyStarts line "MODEL" then collectGo rest models []
    else if pyStarts line "ENDMDL" then collectGo rest (models ++ [current]) []
    else collectGo rest models (current ++ [line])

/-- The list `models` after the reading loop of `split_pdbqt_models`. -/
def collectModels (lines : List String) : List (List String) :=
  (collectGo lines [] []).1

/-- `line.startswith('ATOM') or line.startswith('HETATM')`. -/
def isAtomLine (line : String) : Bool :=
  pyStarts line "ATOM" || pyStarts line "HETATM"

/-- What the writing loop emits for one stored line: coordinate lines
become `line[:66] + '\n'`, other lines are written verbatim. -/
def renderModelLine (line : String) : String :=
  if isAtomLine line then pyTake line 66 ++ "\n" else line

/-- `f"{stem}_model_{i}.pdb"`. -/
def modelFileName (stem : String) (i : Nat) : String :=
  stem ++ "_model_" ++ toString i ++ ".pdb"

/-- The writing loop of `split_pdbqt_models` over the 1-based enumerated
models: empty models are skipped (`continue`), non-empty ones produce a
file whose content is the concatenation of their rendered lines. -/
def writeModels (stem : String) : List (Nat × List String) → List (String × String)
  | [] => []
  | (i, m) :: rest =>
    if m = [] then writeModels stem rest
    else (modelFileName stem i, strJoin (m.map renderModelLine)) :: writeModels stem rest

/-- `split_pdbqt_models` (script lines 207-231): the returned value is the
list of written files as (name, content) pairs, which is also the
script's returned `pdb_files` list (as names). -/
def split_pdbqt_models (stem : String) (lines : List String) : List (String × String) :=
  writeModels stem (List.enumFrom 1 (collectModels lines))

theorem writeModels_eq_filterMap (stem : String) (l : List (Nat × List String)) :
    writeModels stem l = l.filterMap fun p =>
      if p.2 = [] then none
      else some (modelFileName stem p.1, strJoin (p.2.map renderModelLine)) := by
  induction l with
  | nil => rfl
  | cons p rest ih =>
    obtain ⟨i, m⟩ := p
    by_cases h : m = [] <;> simp [writeModels, h, ih]

theorem writeModels_length (stem : String) (l : List (Nat × List String)) :
    (writeModels stem l).length = (l.filter fun p => p.2 ≠ []).length := by
  induction l with
  | nil => rfl
  | cons p rest ih =>
    obtain ⟨i, m⟩ := p
    by_cases h : m = [] <;> simp [writeModels, h, ih]

theorem length_filter_enumFrom (l : List (List String)) (k : Nat) :
    ((List.enumFrom k l).filter fun p => p.2 ≠ []).length
      = (l.filter fun m => m ≠ []).length := by
  induction l generalizing k with
  | nil => rfl
  | cons m rest ih =>
    by_cases h : m = []
    · simpa [List.enumFrom, List.filter, h] using ih (k + 1)
    · simpa [List.enumFrom, List.filter, h] using ih (k + 1)

/-- One output file per non-empty collected model block. -/
theorem split_pdbqt_models_length (stem : String) (lines : List String) :
    (split_pdbqt_models stem lines).length
      = ((collectModels lines).filter fun m => m ≠ []).length := by
  rw [split_pdbqt_models, writeModels_length, length_filter_enumFrom]

theorem collectGo_cons (line : String) (rest : List String)
    (models : List (List String)) (current : List String) :
    collectGo (line :: rest) models current =
      if pyStarts line "MODEL" then collectGo rest models []
      else if pyStarts line "ENDMDL" then collectGo rest (models ++ [current]) []
      else collectGo rest models (current ++ [line]) := rfl

theorem collectGo_models_append (lines : List String) (models : List (List String))
    (current : List String) :
    (collectGo lines models current).1 = models ++ (collectGo lines [] current).1 := by
  induction lines generalizing models current with
  | nil => simp [collectGo]
  | cons line rest ih =>
    rw [collectGo_cons, collectGo_cons]
    by_cases hm : pyStarts line "MODEL"
    · rw [if_pos hm, if_pos hm]
      exact ih models []
    · rw [if_neg hm, if_neg hm]
      by_cases he : pyStarts line "ENDMDL"
      · rw [if_pos he, if_pos he]
        simp only [List.nil_append]
        rw [ih (models ++ [current]) [], ih [current] []]
        simp
      · rw [if_neg he, if_neg he]
        exact ih models (current ++ [line])

/-- If no line of `lines` starts the end-of-model marker, the loop closes
no block: the models list is left unchanged. -/
theorem collectGo_no_endmdl (lines : List String) (models : List (List String))
    (current : List String)
    (h : ∀ line ∈ lines, pyStarts line "ENDMDL" = false) :
    (collectGo lines models current).1 = models := by
  induction lines generalizing models current with
  | nil => rfl
  | cons line rest ih =>
    have hline := h line (by simp)
    rw [collectGo_cons]
    by_cases hm : pyStarts line "MODEL"
    · rw [if_pos hm]
      exact ih _ _ fun l hl => h l (by simp [hl])
    · rw [if_neg hm, if_neg (by simp [hline])]
      exact ih _ _ fun l hl => h l (by simp [hl])

theorem collectGo_append (a b : List String) (models : List (List String))
    (current : List String) :
    collectGo (a ++ b) models current =
      collectGo b (collectGo a models current).1 (collectGo a models current).2 := by
  induction a generalizing models current with
  | nil => rfl
  | cons line rest ih =>
    rw [List.cons_append, collectGo_cons, collectGo_cons]
    by_cases hm : pyStarts line "MODEL"
    · rw [if_pos hm, if_pos hm, ih]
    · rw [if_neg hm, if_neg hm]
      by_cases he : pyStarts line "ENDMDL"
      · rw [if_pos he, if_pos he, ih]
      · rw [if_neg he, if_neg he, ih]

/-- A file containing no end-of-model marker yields no models at all,
hence no output files and an empty returned list. -/
theorem split_no_endmdl (stem : String) (lines : List String)
    (h : ∀ line ∈ lines, pyStarts line "ENDMDL" = false) :
    split_pdbqt_models stem lines = [] := by
  unfold split_pdbqt_models collectModels
  rw [collectGo_no_endmdl lines [] [] h]
  rfl

/-- A trailing block whose end-of-model marker is missing contributes
nothing: appending any marker-free tail leaves the output unchanged. -/
theorem split_drop_trailing (stem : String) (lines tail : List String)
    (h : ∀ line ∈ tail, pyStarts line "ENDMDL" = false) :
    split_pdbqt_models stem (lines ++ tail) = split_pdbqt_models stem lines := by
  unfold split_pdbqt_models collectModels
  rw [collectGo_append, collectGo_no_endmdl tail _ _ h]

/-- Lines before the first start-of-model marker are dropped, provided no
end-of-model marker occurs among them: the output only depends on the
part of the file from the first `MODEL` line on. -/
theorem split_drop_preamble (stem : String) (pre : List String) (m : String)
    (rest : List String)
    (hpre : ∀ line ∈ pre, pyStarts line "ENDMDL" = false)
    (hm : pyStarts m "MODEL" = true) :
    split_pdbqt_models stem (pre ++ m :: rest) = split_pdbqt_models stem (m :: rest) := by
  unfold split_pdbqt_models collectModels
  rw [collectGo_append, collectGo_no_endmdl pre _ _ hpre,
    collectGo_cons, collectGo_cons, if_pos hm, if_pos hm]

/-! ## Engine availability check (`validate_paths`, script lines 154-183)

The two `subprocess.run` attempts are modelled as `Except` inputs: either
a completed process (return code, stdout, stderr) or a raised exception,
with `FileNotFoundError` distinguished from other exceptions because the
script's outer handlers distinguish them. -/

/-- A raised Python exception, as far as the script's handlers care. -/
inductive PyExc where
  | fileNotFound (msg : String)
  | other (msg : String)
deriving DecidableEq, Repr

/-- The fields of a completed `subprocess.run` the script reads. -/
structure ProcResult where
  returncode : Int
  stdout : String
  stderr : String
deriving DecidableEq, Repr

/-- Python's `a or b` on strings: `a` unless it is empty. -/
def pyOr (a b : String) : String := if a = "" then b else a

/-- `(result.stdout or result.stderr or "").strip()`. -/
def outText (r : ProcResult) : String := pyStrip (pyOr r.stdout (pyOr r.stderr ""))

/-- A version number `intPart.fracDigits` as matched by the script's
regular expression `[Vv]ina\s*([0-9]+\.[0-9]+)`. -/
structure VinaVersion where
  intPart : Nat
  fracPart : Nat
  fracLen : Nat
deriving DecidableEq, Repr

/-- `float(ver) < 1.2`, expressed exactly over the matched digits:
`i + f / 10^k < 6/5  ↔  5 * (i * 10^k + f) < 6 * 10^k`. -/
def versionBelow12 (v : VinaVersion) : Bool :=
  5 * (v.intPart * 10 ^ v.fracLen + v.fracPart) < 6 * 10 ^ v.fracLen

/-- Leading decimal digits of a character list, with the remainder. -/
def takeDigits : List Char → List Char × List Char
  | [] => ([], [])
  | c :: cs =>
    if c.isDigit then
      let (d, r) := takeDigits cs
      (c :: d, r)
    else ([], c :: cs)

/-- Attempt to match `[Vv]ina\s*([0-9]+\.[0-9]+)` at the head of the
character list, returning the captured version. -/
def matchVersionHere (cs : List Char) : Option VinaVersion :=
  match cs with
  | c :: 'i' :: 'n' :: 'a' :: rest =>
    if c = 'V' ∨ c = 'v' then
      let afterWs := rest.dropWhile fun ch => pyWS ch
      let (d1, r1) := takeDigits afterWs
      if d1 = [] then none
      else
        match r1 with
        | '.' :: r2 =>
          let (d2, _) := takeDigits r2
          if d2 = [] then none
          else some ⟨digitsToNat d1, digitsToNat d2, d2.length⟩
        | _ => none
    else none
  | _ => none

/-- `re.search` for the version pattern: first match, scanning left to
right. -/
def searchVersion : List Char → Option VinaVersion
  | [] => none
  | c :: cs =>
    match matchVersionHere (c :: cs) with
    | some v => some v
    | none => searchVersion cs

/-- The version string extracted from the consulted invocation's output,
if any. -/
def extractVersion (s : String) : Option VinaVersion := searchVersion s.data

/-- What the script does once it holds a completed `result`: a non-zero
return code is an availability error; otherwise a version older than 1.2
(when one can be extracted) only produces a warning.  Returns
(errors, warnings). -/
def checkRunResult (vinaExec : String) (r : ProcResult) : List String × List String :=
  if r.returncode ≠ 0 then
    (["AutoDock Vina no está disponible en: " ++ vinaExec], [])
  else
    match extractVersion (outText r) with
    | some v =>
      if versionBelow12 v then
        ([], ["⚠️  Detected AutoDock Vina version older than 1.2. Consider upgrading."])
      else ([], [])
    | none => ([], [])

/-- The engine check of `validate_paths` (script lines 154-183).  `ver` is
the outcome of `subprocess.run([vina_exec, "--version"], ...)` and `help`
of the `--help` fallback; the fallback is consulted only when the first
launch raises.  Exceptions raised by the fallback reach the outer
handlers, which distinguish `FileNotFoundError`. -/
def vinaCheck (vinaExec : String) (ver help : Except PyExc ProcResult) :
    List String × List String :=
  match ver with
  | .ok r => checkRunResult vinaExec r
  | .error _ =>
    match help with
    | .ok r => checkRunResult vinaExec r
    | .error (.fileNotFound _) => (["AutoDock Vina no encontrado en: " ++ vinaExec], [])
    | .error (.other e) => (["Error verificando AutoDock Vina: " ++ e], [])

/-- The invocation whose completed result the script actually inspects:
the version query if it launched, otherwise the help query. -/
def consulted (ver help : Except PyExc ProcResult) : Option ProcResult :=
  match ver with
  | .ok r => some r
  | .error _ =>
    match help with
    | .ok r => some r
    | .error _ => none

/-- The error condition as the claim words it: the executable is missing,
or both invocations exit non-zero, or a launch raises an exception that
reaches the user.  Used only to compare the claim against the script. -/
def specEngineError (ver help : Except PyExc ProcResult) : Bool :=
  (match ver with | .error (.fileNotFound _) => true | _ => false)
    || (match help with | .error (.fileNotFound _) => true | _ => false)
    || (match ver, help with
        | .ok r1, .ok r2 => r1.returncode ≠ 0 && r2.returncode ≠ 0
        | _, _ => false)
    || (match ver, help with
        | .error _, .error _ => true
        | _, _ => false)

/-! ## Ligand task (`process_ligand`, script lines 259-322)

A record is a Python dict with string keys and values, in insertion
order.  The ligand's file read and the engine invocation are the task's
fallible inputs. -/

/-- A Python dict of string keys/values, in insertion order. -/
def Rec : Type := List (String × String)

instance : DecidableEq Rec := inferInstanceAs (DecidableEq (List (String × String)))

/-- `entry[k]`, defaulting to `""` (all accessed keys are present in the
records the script builds). -/
def recGet (r : Rec) (k : String) : String :=
  match r.find? fun kv => kv.1 = k with
  | some kv => kv.2
  | none => ""

/-- Whether a record carries the `'Error'` key (the shape of the script's
error rows in the tabular record list). -/
def isErrorRec (r : Rec) : Bool := (r.find? fun kv => kv.1 = "Error").isSome

/-- The pair of single error records (tabular, narrative) the task returns
on every failure path. -/
def errRecs (protein stem msg : String) : List Rec × List Rec :=
  ([[("Ligand", stem), ("Error", msg), ("Protein", protein)]],
   [[("Ligand", stem), ("mode", "ERROR"), ("affinity (kcal/mol)", "N/A"),
     ("dist from best mode", msg), ("Protein", protein)]])

deriving instance DecidableEq for Except

/-- The inputs of one ligand task: the ligand file stem, the outcome of
reading the ligand file (its lines, newline-terminated as Python yields
them, or the text of the raised exception), and the outcome of the
engine invocation (completed process or raised exception). -/
structure LigandInput where
  stem : String
  readRes : Except String (List String)
  engineRes : Except String ProcResult
deriving DecidableEq, Repr

/-- The text of the `CalledProcessError` that `check=True` raises on a
non-zero engine exit (command list elided). -/
def cpeText (rc : Int) : String :=
  "Command returned non-zero exit status " ++ toString rc ++ "."

/-- One success row of the tabular (`excel_records`) list. -/
def excelRow (stem : String) (en : EnergyRec) (protein : String) : Rec :=
  [("Ligand", stem), ("Mode", en.mode), ("Energy (kcal/mol)", en.energy),
   ("RMSD lower", en.rmsdLower), ("RMSD upper", en.rmsdUpper), ("Protein", protein)]

/-- One success row of the narrative (`txt_records`) list. -/
def txtRow (stem : String) (en : EnergyRec) (protein : String) : Rec :=
  [("Ligand", stem), ("mode", en.mode), ("affinity (kcal/mol)", en.energy),
   ("dist from best mode", en.rmsdLower), ("Protein", protein)]

/-- The (tabular, narrative) record lists built from the parsed energies
of a successful engine run. -/
def successRecs (protein stem : String) (stdout : String) : List Rec × List Rec :=
  ((parse_energies stdout).map fun en => excelRow stem en protein,
   (parse_energies stdout).map fun en => txtRow stem en protein)

/-- The `if not lines or not any(...)` guard: empty file or no
atom/heteroatom coordinate line. -/
def noAtomLines (lines : List String) : Bool :=
  lines = [] || ¬ (lines.any fun l => pyStarts l "ATOM" || pyStarts l "HETATM")

/-- `process_ligand` (script lines 259-322).  Every path returns the
uniform (tabular records, narrative records) pair; nothing is raised. -/
def process_ligand (protein : String) (lig : LigandInput) : List Rec × List Rec :=
  match lig.readRes with
  | .error e => errRecs protein lig.stem e
  | .ok lines =>
    if noAtomLines lines then
      errRecs protein lig.stem "Archivo .pdbqt vacío o sin líneas ATOM/HETATM"
    else
      match lig.engineRes with
      | .error e => errRecs protein lig.stem e
      | .ok r =>
        if r.returncode ≠ 0 then errRecs protein lig.stem (cpeText r.returncode)
        else successRecs protein lig.stem r.stdout

/-! ## Batch scheduler aggregation (`run_docking`, script lines 250-343)

The thread pool delivers task results in a non-deterministic completion
order; the aggregation loop is modelled over an arbitrary list of tasks
(`order`), quantified in the theorems as any permutation of the ligands
discovered at batch start.  A task whose `future.result()` raises is
modelled by the `fault` field. -/

/-- One scheduled ligand task, together with an optional unexpected
exception raised when the aggregation loop calls `future.result()`. -/
structure LigTask where
  input : LigandInput
  fault : Option String
deriving DecidableEq, Repr

/-- What the aggregation loop appends for one completed future: the
task's own records, or — when `future.result()` raises — the same
single-error shape built at the aggregation layer. -/
def taskRecords (protein : String) (t : LigTask) : List Rec × List Rec :=
  match t.fault with
  | some e => errRecs protein t.input.stem e
  | none => process_ligand protein t.input

/-- The `excel_results` / `txt_results` accumulation of `run_docking` over
the completion order. -/
def run_docking_records (protein : String) (order : List LigTask) :
    List Rec × List Rec :=
  order.foldl
    (fun acc t => (acc.1 ++ (taskRecords protein t).1, acc.2 ++ (taskRecords protein t).2))
    ([], [])

theorem run_docking_records_eq (protein : String) (order : List LigTask) :
    run_docking_records protein order =
      ((order.map fun t => (taskRecords protein t).1).flatten,
       (order.map fun t => (taskRecords protein t).2).flatten) := by
  have h : ∀ (l : List LigTask) (a : List Rec × List Rec),
      l.foldl
        (fun acc t => (acc.1 ++ (taskRecords protein t).1, acc.2 ++ (taskRecords protein t).2)) a
        = (a.1 ++ (l.map fun t => (taskRecords protein t).1).flatten,
           a.2 ++ (l.map fun t => (taskRecords protein t).2).flatten) := by
    intro l
    induction l with
    | nil => intro a; simp
    | cons t rest ih =>
      intro a
      rw [List.foldl_cons, ih]
      simp
  rw [run_docking_records, h]
  simp

/-- Each task's contribution is one of exactly two shapes: a single pair
of error records carrying some failure text, or the success records
built from some engine stdout. -/
theorem taskRecords_shape (protein : String) (t : LigTask) :
    (∃ msg, taskRecords protein t = errRecs protein t.input.stem msg) ∨
    (∃ out, taskRecords protein t = successRecs protein t.input.stem out) := by
  unfold taskRecords process_ligand
  split
  · exact .inl ⟨_, rfl⟩
  · split
    · exact .inl ⟨_, rfl⟩
    · split
      · exact .inl ⟨_, rfl⟩
      · split
        · exact .inl ⟨_, rfl⟩
        · split
          · exact .inl ⟨_, rfl⟩
          · exact .inr ⟨_, rfl⟩

/-- Every branch of the task gives a non-empty tabular record list: the
error branches give one record, the success branch one per parsed
energy, and `parse_energies` never returns an empty list. -/
theorem taskRecords_ne_nil (protein : String) (t : LigTask) :
    (taskRecords protein t).1 ≠ [] := by
  rcases taskRecords_shape protein t with ⟨msg, heq⟩ | ⟨out, heq⟩
  · rw [heq]
    simp [errRecs]
  · rw [heq]
    simp only [successRecs, ne_eq, List.map_eq_nil_iff]
    exact parse_energies_ne_nil out

/-- Every tabular record a task yields carries its own ligand stem under
the `'Ligand'` key. -/
theorem taskRecords_ligand (protein : String) (t : LigTask) :
    ∀ r ∈ (taskRecords protein t).1, recGet r "Ligand" = t.input.stem := by
  rcases taskRecords_shape protein t with ⟨msg, heq⟩ | ⟨out, heq⟩
  · rw [heq]
    intro r hr
    simp [errRecs] at hr
    subst hr
    rfl
  · rw [heq]
    intro r hr
    simp only [successRecs, List.mem_map] at hr
    obtain ⟨en, _, rfl⟩ := hr
    rfl

/-- A task group that contains an error-shaped record is exactly the
single-record error group. -/
theorem taskRecords_error_single (protein : String) (t : LigTask)
    (h : ∃ r ∈ (taskRecords protein t).1, isErrorRec r = true) :
    (taskRecords protein t).1.length = 1 := by
  rcases taskRecords_shape protein t with ⟨msg, heq⟩ | ⟨out, heq⟩
  · rw [heq]
    rfl
  · exfalso
    rw [heq] at h
    obtain ⟨r, hmem, herr⟩ := h
    simp only [successRecs, List.mem_map] at hmem
    obtain ⟨en, _, rfl⟩ := hmem
    have : isErrorRec (excelRow t.input.stem en protein) = false := rfl
    rw [this] at herr
    exact Bool.false_ne_true herr

/-! ## Results writer (`save_results`, script lines 345-389)

`save_results` renders one receptor's aggregated records into three
files.  `pandas.DataFrame(list_of_dicts)` is modelled as: columns in
order of first appearance across the rows, a missing cell rendered as
the empty string (`NaN` prints as nothing in `to_csv`); `to_csv(...,
index=False)` as a header line plus one comma-joined line per row.  The
rendering is a function of the records only — the script's
`save_results` reads no clock and no other ambient state. -/

/-- Column union in order of first appearance (`pandas` column order for
`DataFrame(list_of_dicts)`). -/
def columnsOf (rows : List Rec) : List String :=
  rows.foldl
    (fun cols r => r.foldl (fun cs kv => if cs.contains kv.1 then cs else cs ++ [kv.1]) cols)
    []

/-- The two RMSD columns dropped from the primary CSV. -/
def dropCols : List String := ["RMSD lower", "RMSD upper"]

/-- The column subset kept in the secondary CSV, in the script's order. -/
def extraCols : List String := ["Ligand", "Mode", "RMSD lower", "RMSD upper"]

/-- One rendered CSV data line. -/
def renderCsvRow (cols : List String) (r : Rec) : String :=
  strIntercalate "," (cols.map fun k => recGet r k)

/-- `DataFrame(rows)[cols].to_csv(index=False)`. -/
def renderCsv (cols : List String) (rows : List Rec) : String :=
  strIntercalate "," cols ++ "\n" ++ strJoin (rows.map fun r => renderCsvRow cols r ++ "\n")

/-- `'=' * 60`. -/
def eq60 : String := String.mk (List.replicate 60 '=')

/-- `'-' * 50`. -/
def dash50 : String := String.mk (List.replicate 50 '-')

/-- The banner opening the narrative report. -/
def txtHeader (protein : String) : String :=
  eq60 ++ "\n" ++ "Resultados de Docking - " ++ protein ++ "\n" ++ eq60 ++ "\n\n"

/-- One step of the narrative-report loop: the carried state is
(`current_ligand`, text so far). -/
def txtStep (st : Option String × String) (entry : Rec) : Option String × String :=
  let lig := recGet entry "Ligand"
  let st :=
    if st.1 ≠ some lig then
      (some lig,
       st.2 ++ "\n▶ Ligand: " ++ lig ++ "\n"
         ++ "| mode | affinity | dist from best mode |\n" ++ dash50 ++ "\n")
    else st
  if recGet entry "mode" = "ERROR" then
    (st.1, st.2 ++ "⚠ Error: " ++ recGet entry "dist from best mode" ++ "\n")
  else
    (st.1, st.2 ++ recGet entry "mode" ++ "  " ++ recGet entry "affinity (kcal/mol)"
      ++ "    " ++ recGet entry "dist from best mode" ++ "\n")

/-- The narrative report: header banner, then the per-entry loop with its
`current_ligand` tracking. -/
def renderTxt (protein : String) (txtData : List Rec) : String :=
  (txtData.foldl txtStep (none, txtHeader protein)).2

/-- The three files `save_results` writes for one receptor, as
(name, content) pairs: primary CSV without the RMSD columns, secondary
CSV restricted to the extra columns, narrative TXT report. -/
def save_results_files (protein : String) (excelData txtData : List Rec) :
    List (String × String) :=
  let cols := columnsOf excelData
  [(protein ++ "_results.csv",
    renderCsv (cols.filter fun c => ¬ dropCols.contains c) excelData),
   (protein ++ "_extra.csv",
    renderCsv (extraCols.filter fun c => cols.contains c) excelData),
   (protein ++ "_results.txt", renderTxt protein txtData)]

/-- A file system restricted to file contents: each write truncates and
replaces (`open(..., 'w')`, `to_csv`). -/
def applyWrites (fs : List (String × String)) (σ : String → Option String) :
    String → Option String :=
  fs.foldl (fun σ f => fun name => if name = f.1 then some f.2 else σ name) σ

theorem applyWrites_lookup (fs : List (String × String)) (σ : String → Option String)
    (n : String) :
    applyWrites fs σ n =
      match fs.reverse.find? fun f => f.1 = n with
      | some f => some f.2
      | none => σ n := by
  induction fs generalizing σ with
  | nil => rfl
  | cons f fs ih =>
    show applyWrites fs (fun name => if name = f.1 then some f.2 else σ name) n = _
    rw [ih]
    rcases hfind : fs.reverse.find? fun g => g.1 = n with _ | g
    · by_cases hn : f.1 = n
      · simp [List.reverse_cons, List.find?_append, hfind, List.find?, hn]
      · have hn' : ¬ n = f.1 := fun h => hn h.symm
        simp [List.reverse_cons, List.find?_append, hfind, List.find?, hn, hn']
    · simp [List.reverse_cons, List.find?_append, hfind]

/-- Writing the same file set twice leaves the file system exactly as one
write does. -/
theorem applyWrites_idem (fs : List (String × String)) (σ : String → Option String) :
    applyWrites fs (applyWrites fs σ) = applyWrites fs σ := by
  funext n
  rw [applyWrites_lookup, applyWrites_lookup]
  rcases hfind : fs.reverse.find? fun f => f.1 = n with _ | f
  · simp [hfind]
  · simp [hfind]

/-! ## Worker-count clamping (`main`, script lines 402-406) -/

/-- The clamp `main` applies to a parsed `parallel_workers` value (`none`
models the unset / unbounded case, which `main` leaves untouched):
first cap at `cpu_count`, else raise to 1 when below 1. -/
def clamp_workers (pw : Option Int) (cpuCount : Int) : Option Int :=
  match pw with
  | none => none
  | some w => some (if w > cpuCount then cpuCount else if w < 1 then 1 else w)

/-! ## Batch driver (`main`, script lines 399-458)

Per configuration, `main` runs `parse_config`, the worker clamp and
`validate_paths` *before* entering its `try` block; both `parse_config`
and `validate_paths` fail only via `sys.exit`, which terminates the
whole process.  Only `run_docking` / `save_results` (and the prints
around them) run inside the `try`, whose `except Exception` writes the
`"Error"` history row and lets the loop continue.  Each phase's outcome
is an input of the model. -/

/-- The phases of one configuration, as their outcomes: `parseRes` for
`parse_config` (error = the `sys.exit` message), `validateRes` for
`validate_paths` (error = the joined `sys.exit` message), `workRes` for
the `run_docking` + `save_results` body of the `try` block. -/
structure ConfigBehavior where
  name : String
  parseRes : Except String Unit
  validateRes : Except String Unit
  workRes : Except String Unit
deriving DecidableEq, Repr

/-- One row of the execution-history ledger, reduced to the fields the
claims are about. -/
structure LedgerRow where
  receptor : String
  estado : String
  observaciones : String
deriving DecidableEq, Repr

/-- The history row `main` appends for one configuration that reached its
`try` block. -/
def rowFor (c : ConfigBehavior) : LedgerRow :=
  match c.workRes with
  | .ok _ => ⟨c.name, "OK", "Execution completed successfully for " ++ c.name⟩
  | .error e => ⟨c.name, "Error", e ++ " (config: " ++ c.name ++ ")"⟩

/-- The configuration loop of `main`: the returned pair is the list of
appended ledger rows and, when the process exited via `sys.exit`
mid-batch, the exit message (`none` when the loop ran to the end). -/
def drive_batch : List ConfigBehavior → List LedgerRow × Option String
  | [] => ([], none)
  | c :: rest =>
    match c.parseRes with
    | .error m => ([], some m)
    | .ok _ =>
      match c.validateRes with
      | .error m => ([], some m)
      | .ok _ =>
        let r := drive_batch rest
        (rowFor c :: r.1, r.2)

/-- When every configuration parses and validates, the driver appends
exactly one row per configuration — `"OK"` or `"Error"` according to the
`try` body's outcome — and never exits early. -/
theorem drive_batch_all_valid (configs : List ConfigBehavior)
    (h : ∀ c ∈ configs, c.parseRes = .ok () ∧ c.validateRes = .ok ()) :
    drive_batch configs = (configs.map rowFor, none) := by
  induction configs with
  | nil => rfl
  | cons c rest ih =>
    obtain ⟨hp, hv⟩ := h c (by simp)
    unfold drive_batch
    rw [hp, hv, ih fun d hd => h d (by simp [hd])]
    rfl

/-! ## Claims -/

/-- A concrete 75-column coordinate line (with its newline), longer than
66 columns so that the splitter's truncation is visible. -/
def atomLine76 : String := "ATOM" ++ String.mk (List.replicate 62 'x') ++ "  +0.12 C\n"

/-- The first 66 columns of `atomLine76`. -/
def atomLine66 : String := "ATOM" ++ String.mk (List.replicate 62 'x')

theorem lineStartsDigit_iff (line : String) :
    lineStartsDigit line = true ↔
      ∃ c cs, stripChars line.data = c :: cs
        ∧ c ∈ ['1', '2', '3', '4', '5', '6', '7', '8', '9'] := by
  unfold lineStartsDigit pyStrip pyStarts digitStrings
  rcases h : stripChars line.data with _ | ⟨c, cs⟩
  · simp [h, listStarts]
  · simp [h, listStarts]

/-- Claim C3 (corrected, counterexample): the script classifies the line
`"12 a b c"` as a results row (its stripped form starts with the
character `'1'`) and extracts the record with mode `"12"`, although its
first non-whitespace token is the numeral 12, which is not under 10 — so
"first token is a numeral under 10 (mode index 1-9)" does not
characterize the accepted lines. -/
theorem parse_table_numeral_counterexample :
    parse_energies "12 a b c" = [⟨"12", "a", "b", "c"⟩]
      ∧ specQualifies "12 a b c" = false
      ∧ lineQualifies "12 a b c" = true := by
  refine ⟨by decide, by decide, by decide⟩

/-- Claim C3 (amended): a line of engine output is classified as a
results row if and only if its first non-whitespace CHARACTER is a digit
`1`-`9` and the stripped line splits into at least 4
whitespace-separated fields; from each such line the first four fields
are extracted positionally, in input order, and when no line qualifies
the sentinel is returned.  In particular `"1  -7.2  0.000  0.000"`
yields exactly the record (`"1"`, `"-7.2"`, `"0.000"`, `"0.000"`). -/
theorem parse_table_classification_amended :
    (∀ output, parse_energies output =
       if qualifyingRows output = [] then [naRecord] else qualifyingRows output)
    ∧ (∀ line, lineQualifies line = true ↔
        ((∃ c cs, stripChars line.data = c :: cs
            ∧ c ∈ ['1', '2', '3', '4', '5', '6', '7', '8', '9'])
          ∧ 4 ≤ (pySplit (pyStrip line)).length))
    ∧ parse_energies "1  -7.2  0.000  0.000" = [⟨"1", "-7.2", "0.000", "0.000"⟩] := by
  refine ⟨parse_energies_eq, fun line => ?_, by decide⟩
  unfold lineQualifies
  rw [Bool.and_eq_true, decide_eq_true_eq, lineStartsDigit_iff]

/-- Claim C4 (confirmed): when zero lines of the output qualify, the
parser returns exactly the one sentinel record with all four fields
`"N/A"`; and for every input whatsoever the parser's result is
non-empty. -/
theorem parse_energies_sentinel (output : String) :
    ((pyLines output).filter lineQualifies = [] → parse_energies output = [naRecord])
      ∧ parse_energies output ≠ [] := by
  constructor
  · intro h
    rw [parse_energies_eq]
    simp [qualifyingRows, h]
  · exact parse_energies_ne_nil output

/-- Witness for C4 at a concrete output with no qualifying line. -/
theorem parse_energies_sentinel_witness :
    parse_energies "header line\nfoo bar" = [naRecord]
      ∧ parse_energies "header line\nfoo bar" ≠ [] :=
  ⟨(parse_energies_sentinel "header line\nfoo bar").1 (by decide),
   (parse_energies_sentinel "header line\nfoo bar").2⟩

/-- Claim C5 (confirmed): the splitter writes one output file per
non-empty model block, named stem ++ "_model_" ++ (1-based block index);
coordinate lines are truncated to their first 66 columns, other block
lines are kept verbatim; an empty block produces no file; a two-block
file produces exactly the files numbered `_model_1` and `_model_2`. -/
theorem split_models_per_block :
    (∀ stem lines, split_pdbqt_models stem lines
        = (List.enumFrom 1 (collectModels lines)).filterMap fun p =>
            if p.2 = [] then none
            else some (modelFileName stem p.1, strJoin (p.2.map renderModelLine)))
    ∧ (∀ stem lines, (split_pdbqt_models stem lines).length
        = ((collectModels lines).filter fun m => m ≠ []).length)
    ∧ split_pdbqt_models "lig_docked"
        ["MODEL 1\n", atomLine76, "ENDMDL\n",
         "MODEL 2\n", "REMARK hello\n", atomLine76, "ENDMDL\n"]
      = [("lig_docked_model_1.pdb", atomLine66 ++ "\n"),
         ("lig_docked_model_2.pdb", "REMARK hello\n" ++ atomLine66 ++ "\n")]
    ∧ split_pdbqt_models "lig"
        ["MODEL 1\n", "ENDMDL\n", "MODEL 2\n", atomLine76, "ENDMDL\n"]
      = [("lig_model_2.pdb", atomLine66 ++ "\n")] := by
  refine ⟨fun stem lines => ?_, split_pdbqt_models_length, by decide, by decide⟩
  rw [split_pdbqt_models, writeModels_eq_filterMap]

/-- Claim C10 (corrected, counterexample): a file with no start-of-model
marker but one end-of-model marker DOES write its preamble lines to an
output file: the lines before the first `MODEL` marker become model 1
when an `ENDMDL` precedes every `MODEL`. -/
theorem splitter_preamble_counterexample :
    split_pdbqt_models "out" ["ATOM 1\n", "ENDMDL\n"]
      = [("out_model_1.pdb", "ATOM 1\n\n")] := by decide

/-- Claim C10 (amended): a file containing no end-of-model marker at all
produces zero output files and an empty returned list; lines of a
trailing block whose end-of-model marker is missing are never written;
and lines before the first start-of-model marker are never written
PROVIDED no end-of-model marker occurs among them. -/
theorem splitter_dropped_lines_amended :
    (∀ stem lines, (∀ line ∈ lines, pyStarts line "ENDMDL" = false) →
        split_pdbqt_models stem lines = [])
    ∧ (∀ stem lines tail, (∀ line ∈ tail, pyStarts line "ENDMDL" = false) →
        split_pdbqt_models stem (lines ++ tail) = split_pdbqt_models stem lines)
    ∧ (∀ stem pre m rest, (∀ line ∈ pre, pyStarts line "ENDMDL" = false) →
        pyStarts m "MODEL" = true →
        split_pdbqt_models stem (pre ++ m :: rest) = split_pdbqt_models stem (m :: rest)) :=
  ⟨split_no_endmdl, split_drop_trailing, split_drop_preamble⟩

/-- Witness for C10 at concrete inputs: a file with no `ENDMDL` yields no
output; an unterminated trailing block changes nothing; a marker-free
preamble before the first `MODEL` changes nothing. -/
theorem splitter_dropped_lines_witness :
    split_pdbqt_models "out" ["MODEL 1\n", "ATOM x\n"] = []
      ∧ split_pdbqt_models "o2"
          (["MODEL 1\n", "ATOM a\n", "ENDMDL\n"] ++ ["MODEL 2\n", "ATOM b\n"])
        = split_pdbqt_models "o2" ["MODEL 1\n", "ATOM a\n", "ENDMDL\n"]
      ∧ split_pdbqt_models "o3" (["REMARK r\n"] ++ "MODEL 1\n" :: ["ATOM c\n", "ENDMDL\n"])
        = split_pdbqt_models "o3" ("MODEL 1\n" :: ["ATOM c\n", "ENDMDL\n"]) :=
  ⟨splitter_dropped_lines_amended.1 "out" ["MODEL 1\n", "ATOM x\n"] (by decide),
   splitter_dropped_lines_amended.2.1 "o2" ["MODEL 1\n", "ATOM a\n", "ENDMDL\n"]
     ["MODEL 2\n", "ATOM b\n"] (by decide),
   splitter_dropped_lines_amended.2.2 "o3" ["REMARK r\n"] "MODEL 1\n"
     ["ATOM c\n", "ENDMDL\n"] (by decide) (by decide)⟩

/-- Claim C2 (confirmed): for any completion order (any permutation of
the ligand tasks discovered at batch start) the aggregated tabular
records are exactly the concatenation of one group per task; the number
of groups equals the number of discovered ligands; every group is
non-empty, carries its own ligand's stem on every record, and a group
containing an error-shaped record is a single error record — so every
ligand yields exactly one outcome, none lost, none duplicated, even when
`future.result()` raises at the aggregation layer (the `fault` field). -/
theorem scheduler_no_loss (protein : String) (ligands order : List LigTask)
    (hperm : order.Perm ligands) :
    (run_docking_records protein order).1
        = (order.map fun t => (taskRecords protein t).1).flatten
      ∧ (order.map fun t => (taskRecords protein t).1).length = ligands.length
      ∧ ∀ t ∈ order, (taskRecords protein t).1 ≠ []
          ∧ (∀ r ∈ (taskRecords protein t).1, recGet r "Ligand" = t.input.stem)
          ∧ ((∃ r ∈ (taskRecords protein t).1, isErrorRec r = true)
              → (taskRecords protein t).1.length = 1) := by
  refine ⟨?_, ?_, fun t _ => ⟨taskRecords_ne_nil protein t, taskRecords_ligand protein t,
    taskRecords_error_single protein t⟩⟩
  · rw [run_docking_records_eq]
  · rw [List.length_map, hperm.length_eq]

/-- A successful concrete ligand task. -/
def witTask1 : LigTask := ⟨⟨"ligA", .ok ["ATOM 1\n"], .ok ⟨0, "1 -7.2 0.0 0.0", ""⟩⟩, none⟩

/-- A concrete ligand task whose `future.result()` raises. -/
def witTask2 : LigTask := ⟨⟨"ligB", .ok ["ATOM 2\n"], .ok ⟨0, "", ""⟩⟩, some "pool fault"⟩

/-- Witness for C2: two discovered ligands completing in reversed order,
one of them faulting at the aggregation layer. -/
theorem scheduler_no_loss_witness :
    (run_docking_records "prot" [witTask2, witTask1]).1
        = ([witTask2, witTask1].map fun t => (taskRecords "prot" t).1).flatten
      ∧ ([witTask2, witTask1].map fun t => (taskRecords "prot" t).1).length
          = [witTask1, witTask2].length
      ∧ ∀ t ∈ [witTask2, witTask1], (taskRecords "prot" t).1 ≠ []
          ∧ (∀ r ∈ (taskRecords "prot" t).1, recGet r "Ligand" = t.input.stem)
          ∧ ((∃ r ∈ (taskRecords "prot" t).1, isErrorRec r = true)
              → (taskRecords "prot" t).1.length = 1) :=
  scheduler_no_loss "prot" [witTask1, witTask2] [witTask2, witTask1]
    (List.Perm.swap witTask1 witTask2 [])

/-- Claim C6 (corrected, counterexample): when the version invocation
launches and exits non-zero while the help invocation would exit zero,
the script records an availability error — although the claim's
condition (executable missing, both invocations non-zero, or a launch
exception) does not hold, since the help invocation exits zero.  The
script never falls back to `--help` on a mere non-zero `--version`
exit; it falls back only when the launch raises. -/
theorem vina_check_nonzero_counterexample :
    (vinaCheck "vina" (.ok ⟨1, "", ""⟩) (.ok ⟨0, "", ""⟩)).1
        = ["AutoDock Vina no está disponible en: vina"]
      ∧ specEngineError (.ok ⟨1, "", ""⟩) (.ok ⟨0, "", ""⟩) = false := by
  exact ⟨by decide, by decide⟩

theorem checkRunResult_errors (vinaExec : String) (r : ProcResult) :
    (checkRunResult vinaExec r).1 = [] ↔ r.returncode = 0 := by
  unfold checkRunResult
  by_cases h : r.returncode = 0
  · rw [if_neg (by simp [h])]
    rcases hv : extractVersion (outText r) with _ | v
    · simp [h]
    · by_cases hb : versionBelow12 v <;> simp [hb, h]
  · rw [if_pos h]
    simp [h]

theorem checkRunResult_warn (vinaExec : String) (r : ProcResult) (v : VinaVersion)
    (h0 : r.returncode = 0) (hv : extractVersion (outText r) = some v)
    (hb : versionBelow12 v = true) :
    checkRunResult vinaExec r
      = ([], ["⚠️  Detected AutoDock Vina version older than 1.2. Consider upgrading."]) := by
  unfold checkRunResult
  rw [if_neg (by simp [h0]), hv]
  simp [hb]

/-- Claim C6 (amended): the engine check consults the help invocation
only when the version launch raises (when the version invocation
launched, its completed result alone is inspected); an error is recorded
exactly when no consulted invocation exits zero — i.e. the consulted
invocation exits non-zero, or both launches raise; and when the
consulted invocation exits zero and a version older than 1.2 is
extracted from its output, a warning is emitted and no error. -/
theorem vina_check_amended (vinaExec : String) (ver help : Except PyExc ProcResult) :
    (∀ r, ver = .ok r → vinaCheck vinaExec ver help = checkRunResult vinaExec r)
      ∧ ((vinaCheck vinaExec ver help).1 = [] ↔
          ∃ r, consulted ver help = some r ∧ r.returncode = 0)
      ∧ (∀ r v, consulted ver help = some r → r.returncode = 0 →
          extractVersion (outText r) = some v → versionBelow12 v = true →
          (vinaCheck vinaExec ver help).1 = [] ∧ (vinaCheck vinaExec ver help).2 ≠ []) := by
  refine ⟨?_, ?_, ?_⟩
  · intro r h
    rw [h]
    rfl
  · cases ver with
    | ok r =>
      show (checkRunResult vinaExec r).1 = [] ↔ _
      rw [checkRunResult_errors]
      constructor
      · intro h
        exact ⟨r, rfl, h⟩
      · rintro ⟨r', hr', h0⟩
        obtain rfl : r = r' := by
          simpa [consulted] using hr'
        exact h0
    | error ex =>
      cases help with
      | ok r =>
        show (checkRunResult vinaExec r).1 = [] ↔ _
        rw [checkRunResult_errors]
        constructor
        · intro h
          exact ⟨r, rfl, h⟩
        · rintro ⟨r', hr', h0⟩
          obtain rfl : r = r' := by
            simpa [consulted] using hr'
          exact h0
      | error ex2 =>
        cases ex2 with
        | fileNotFound m =>
          constructor
          · intro h
            simp [vinaCheck] at h
          · rintro ⟨r, hr, -⟩
            simp [consulted] at hr
        | other m =>
          constructor
          · intro h
            simp [vinaCheck] at h
          · rintro ⟨r, hr, -⟩
            simp [consulted] at hr
  · intro r v hc h0 hv hb
    cases ver with
    | ok r0 =>
      obtain rfl : r0 = r := by
        simpa [consulted] using hc
      show (checkRunResult vinaExec r0).1 = [] ∧ (checkRunResult vinaExec r0).2 ≠ []
      rw [checkRunResult_warn vinaExec r0 v h0 hv hb]
      simp
    | error ex =>
      cases help with
      | ok r0 =>
        obtain rfl : r0 = r := by
          simpa [consulted] using hc
        show (checkRunResult vinaExec r0).1 = [] ∧ (checkRunResult vinaExec r0).2 ≠ []
        rw [checkRunResult_warn vinaExec r0 v h0 hv hb]
        simp
      | error ex2 =>
        exfalso
        simp [consulted] at hc

/-- A version invocation that completed with exit 0 and an old version
banner. -/
def verOld : Except PyExc ProcResult := .ok ⟨0, "AutoDock vina 1.1 (release)", ""⟩

/-- Witness for C6: the version invocation launched, so the help outcome
is never consulted; exit 0 with banner version 1.1 yields a warning and
no error. -/
theorem vina_check_amended_witness :
    vinaCheck "vina" verOld (.error (.other "unused"))
        = checkRunResult "vina" ⟨0, "AutoDock vina 1.1 (release)", ""⟩
      ∧ (vinaCheck "vina" verOld (.error (.other "unused"))).1 = []
      ∧ (vinaCheck "vina" verOld (.error (.other "unused"))).2 ≠ [] :=
  ⟨(vina_check_amended "vina" verOld (.error (.other "unused"))).1
     ⟨0, "AutoDock vina 1.1 (release)", ""⟩ rfl,
   (vina_check_amended "vina" verOld (.error (.other "unused"))).2.2
     ⟨0, "AutoDock vina 1.1 (release)", ""⟩ ⟨1, 1, 1⟩ rfl rfl (by decide) (by decide)⟩

/-- Claim C7 (confirmed): the ligand task returns the single pair of
error records — without the engine outcome ever being consulted — when
the ligand file is unreadable or has no atom/heteroatom coordinate line
(the first two parts hold for an arbitrary `eng`, and the right-hand
sides do not mention it); it returns error records carrying the failure
text on an invocation exception or a non-zero exit; and on success it
returns the records built from the parsed stdout.  Every path returns
the uniform two-list pair — the function is total, nothing is raised. -/
theorem process_ligand_failure_paths (protein : String) :
    (∀ stem e eng, process_ligand protein ⟨stem, .error e, eng⟩ = errRecs protein stem e)
      ∧ (∀ stem lines eng, noAtomLines lines = true →
          process_ligand protein ⟨stem, .ok lines, eng⟩
            = errRecs protein stem "Archivo .pdbqt vacío o sin líneas ATOM/HETATM")
      ∧ (∀ stem lines e, noAtomLines lines = false →
          process_ligand protein ⟨stem, .ok lines, .error e⟩ = errRecs protein stem e)
      ∧ (∀ stem lines r, noAtomLines lines = false → r.returncode ≠ 0 →
          process_ligand protein ⟨stem, .ok lines, .ok r⟩
            = errRecs protein stem (cpeText r.returncode))
      ∧ (∀ stem lines r, noAtomLines lines = false → r.returncode = 0 →
          process_ligand protein ⟨stem, .ok lines, .ok r⟩
            = successRecs protein stem r.stdout) := by
  refine ⟨fun stem e eng => rfl, ?_, ?_, ?_, ?_⟩
  · intro stem lines eng h
    simp [process_ligand, h]
  · intro stem lines e h
    simp [process_ligand, h]
  · intro stem lines r h hrc
    simp [process_ligand, h, hrc]
  · intro stem lines r h hrc
    simp [process_ligand, h, hrc]

/-- Witness for C7: an empty ligand file, a launch exception, a non-zero
exit and a success, all at concrete inputs. -/
theorem process_ligand_failure_witness :
    process_ligand "p" ⟨"lig1", .ok [], .ok ⟨0, "", ""⟩⟩
        = errRecs "p" "lig1" "Archivo .pdbqt vacío o sin líneas ATOM/HETATM"
      ∧ process_ligand "p" ⟨"lig2", .ok ["ATOM x\n"], .error "launch failed"⟩
          = errRecs "p" "lig2" "launch failed"
      ∧ process_ligand "p" ⟨"lig3", .ok ["ATOM x\n"], .ok ⟨1, "", ""⟩⟩
          = errRecs "p" "lig3" (cpeText 1)
      ∧ process_ligand "p" ⟨"lig4", .ok ["ATOM x\n"], .ok ⟨0, "1 -7 0 0", ""⟩⟩
          = successRecs "p" "lig4" "1 -7 0 0" :=
  ⟨(process_ligand_failure_paths "p").2.1 "lig1" [] (.ok ⟨0, "", ""⟩) (by decide),
   (process_ligand_failure_paths "p").2.2.1 "lig2" ["ATOM x\n"] "launch failed" (by decide),
   (process_ligand_failure_paths "p").2.2.2.1 "lig3" ["ATOM x\n"] ⟨1, "", ""⟩
     (by decide) (by decide),
   (process_ligand_failure_paths "p").2.2.2.2 "lig4" ["ATOM x\n"] ⟨0, "1 -7 0 0", ""⟩
     (by decide) (by decide)⟩

/-- Claim C8 (confirmed): an unset worker-count stays unset (unbounded);
for any configured value, the clamped value exists and lies in
`[1, cpu_count]` — 0 or negative is raised to 1, anything above the
available parallelism is capped to it. -/
theorem clamp_workers_bounds (cpuCount : Int) (hcpu : 1 ≤ cpuCount) :
    clamp_workers none cpuCount = none
      ∧ ∀ w : Int, ∃ w', clamp_workers (some w) cpuCount = some w'
          ∧ 1 ≤ w' ∧ w' ≤ cpuCount := by
  refine ⟨rfl, fun w => ⟨_, rfl, ?_, ?_⟩⟩
  · split
    · omega
    · split <;> omega
  · split
    · omega
    · split <;> omega

/-- Witness for C8 with 4 CPUs and a configured worker-count of 0. -/
theorem clamp_workers_bounds_witness :
    clamp_workers none 4 = none
      ∧ ∃ w', clamp_workers (some 0) 4 = some w' ∧ 1 ≤ w' ∧ w' ≤ 4 :=
  ⟨(clamp_workers_bounds 4 (by decide)).1, (clamp_workers_bounds 4 (by decide)).2 0⟩

/-- Claim C9 (confirmed): the three report files are a pure function of
(receptor name, aggregated records) — the rendering reads no clock and
no ambient state — and writing them a second time leaves every file's
bytes exactly as the first write did, over any starting file system. -/
theorem save_results_idempotent (protein : String) (excelData txtData : List Rec)
    (σ : String → Option String) :
    applyWrites (save_results_files protein excelData txtData)
        (applyWrites (save_results_files protein excelData txtData) σ)
      = applyWrites (save_results_files protein excelData txtData) σ :=
  applyWrites_idem (save_results_files protein excelData txtData) σ

/-- A configuration whose `parse_config` fails (its `sys.exit` message). -/
def cfgParseFail : ConfigBehavior := ⟨"r1", .error "bad config", .ok (), .ok ()⟩

/-- A configuration every phase of which succeeds. -/
def cfgFine : ConfigBehavior := ⟨"r2", .ok (), .ok (), .ok ()⟩

/-- A configuration whose `try` body (docking / writing) raises. -/
def cfgWorkFail : ConfigBehavior := ⟨"rA", .ok (), .ok (), .error "boom"⟩

/-- A configuration whose `validate_paths` fails. -/
def cfgValFail : ConfigBehavior := ⟨"rV", .ok (), .error "missing receptor", .ok ()⟩

/-- Claim C1 (corrected, counterexample): a normalization
(`parse_config`) failure on the first configuration terminates the
process via `sys.exit` — the ledger receives NO row at all (not an
"Error" row) and the second, healthy configuration is never processed,
while the same healthy configuration alone would yield its ledger
row.  `parse_config` and `validate_paths` run before `main`'s `try`
block, so their failures are not converted to ledger rows. -/
theorem driver_parse_exit_counterexample :
    drive_batch [cfgParseFail, cfgFine] = ([], some "bad config")
      ∧ drive_batch [cfgFine]
          = ([⟨"r2", "OK", "Execution completed successfully for r2"⟩], none) := by
  exact ⟨by decide, by decide⟩

/-- Claim C1 (amended): only exceptions raised by the docking/writing
body of the `try` block are converted into an `"Error"` ledger row
(carrying the exception text) with the loop continuing to the next
configuration; a normalization or validation failure instead exits the
whole process immediately, appending no ledger row and aborting all
remaining configurations. -/
theorem driver_ledger_isolation_amended :
    (∀ configs : List ConfigBehavior,
        (∀ c ∈ configs, c.parseRes = .ok () ∧ c.validateRes = .ok ()) →
        drive_batch configs = (configs.map rowFor, none))
      ∧ (∀ (c : ConfigBehavior) rest m, c.parseRes = .error m →
          drive_batch (c :: rest) = ([], some m))
      ∧ (∀ (c : ConfigBehavior) rest m, c.parseRes = .ok () → c.validateRes = .error m →
          drive_batch (c :: rest) = ([], some m)) := by
  refine ⟨drive_batch_all_valid, ?_, ?_⟩
  · intro c rest m h
    unfold drive_batch
    rw [h]
  · intro c rest m hp hv
    unfold drive_batch
    rw [hp, hv]

/-- Witness for C1: a docking failure yields an `"Error"` row and the
next receptor is still processed; a validation failure exits with no
row. -/
theorem driver_ledger_isolation_witness :
    drive_batch [cfgWorkFail, cfgFine]
        = ([⟨"rA", "Error", "boom (config: rA)"⟩,
            ⟨"r2", "OK", "Execution completed successfully for r2"⟩], none)
      ∧ drive_batch [cfgValFail, cfgFine] = ([], some "missing receptor") :=
  ⟨(driver_ledger_isolation_amended.1 [cfgWorkFail, cfgFine] (by decide)).trans (by decide),
   driver_ledger_isolation_amended.2.2 cfgValFail [cfgFine] "missing receptor" rfl rfl⟩

end Vina
